import Mathlib

/-!
Verification development for the conversation-state engine of the
whatsapp-clone repository (source files ChatSidebar.tsx, ChatArea.tsx,
Stories.tsx together with the App component).  The TypeScript code is
shallowly embedded: the durable store collections become lists of records,
millisecond clock readings become explicit natural-number parameters, and
each handler becomes a pure function from the observable state it reads to
the observable state it leaves behind.  A durable call that may fail is
given its outcome as an explicit boolean parameter.
-/

/-- Embedding of the JavaScript string `trim()` used by the handlers:
whitespace is stripped from both ends.  This is defined structurally on the
character list so that it evaluates inside the kernel. -/
def jsTrim (s : String) : String :=
  String.mk (((s.toList.dropWhile Char.isWhitespace).reverse.dropWhile
    Char.isWhitespace).reverse)

/-! ## Message pipeline (ChatArea.tsx) -/

/-- Message record as stored in the messages collection and mirrored in the
local `messages` state of ChatArea.  Ids are the `Date.now()` stamps the
source embeds in `msg_` strings, modelled as naturals. -/
structure Message where
  id : Nat
  chatId : Nat
  senderId : String
  content : String
  messageType : String
  fileUrl : Option String := none
  replyToMessageId : Option Nat := none
  isForwarded : Bool := false
  isStarred : Bool := false
  createdAt : Nat
deriving DecidableEq, Repr

/-- The optimistic message built by `sendMessage` (ChatArea.tsx lines
200-212): a text message stamped with the current clock reading, carrying
the reply reference when one is set. -/
def mkTextMessage (chatId : Nat) (senderId : String) (body : String)
    (replyTo : Option Message) (now : Nat) : Message :=
  { id := now, chatId := chatId, senderId := senderId, content := body,
    messageType := "text", replyToMessageId := replyTo.map (fun m => m.id),
    isForwarded := false, isStarred := false, createdAt := now }

/-- Embedding of `sendMessage` (ChatArea.tsx lines 192-244) restricted to
its effect on the local `messages` state.  The guard mirrors
`if (!newMessage.trim() || ...) return`.  On the happy path the message is
appended optimistically and the durable create succeeds (`createOk`);
when the create fails, the catch branch removes the optimistic message by
filtering on its id. -/
def sendMessage (msgs : List Message) (chatId : Nat) (sender : String)
    (draft : String) (replyTo : Option Message) (now : Nat)
    (createOk : Bool) : List Message :=
  if jsTrim draft = "" then msgs
  else
    let m := mkTextMessage chatId sender draft replyTo now
    if createOk then msgs ++ [m]
    else (msgs ++ [m]).filter (fun x => x.id != now)

/-- Rendering condition of the Delete menu item (ChatArea.tsx line 612):
the item exists only when the message was sent by the current user. -/
def deleteMenuShown (m : Message) (uid : String) : Bool :=
  m.senderId == uid

/-- Effect of `blink.db.messages.delete(message.id)` on the messages
collection (ChatArea.tsx line 400). -/
def deleteMessageRecord (db : List Message) (mid : Nat) : List Message :=
  db.filter (fun x => x.id != mid)

/-- Embedding of `loadMessages` (ChatArea.tsx lines 136-185): the listing a
user observes for a chat, filtered by chat id and ordered by creation
time ascending. -/
def listMessages (db : List Message) (chatId : Nat) : List Message :=
  (db.filter (fun m => m.chatId == chatId)).mergeSort
    (fun a b => decide (a.createdAt ≤ b.createdAt))

/-- The delete pathway as the component exposes it: the action can only be
dispatched through the menu item, which is rendered for the sender alone,
so for any other acting user the action is unavailable (`none`); when it is
available, `handleMessageAction` issues the durable delete. -/
def tryDeleteMessage (db : List Message) (uid : String) (m : Message) :
    Option (List Message) :=
  if deleteMenuShown m uid then some (deleteMessageRecord db m.id) else none

/-! ## Conversation directory (ChatSidebar.tsx and the App component) -/

/-- Chat kind as stored in the chats collection. -/
inductive ChatKind where
  | individual
  | group
deriving DecidableEq, Repr

/-- Chat record (fields of the chats collection used by the directory). -/
structure ChatRec where
  id : Nat
  kind : ChatKind
  createdBy : String
deriving DecidableEq, Repr

/-- Row of the chatParticipants collection. -/
structure PRow where
  chatId : Nat
  userId : String
deriving DecidableEq, Repr

/-- Durable-store state read and written by the directory.  The stamp
models the `Date.now()` reading used to mint the next chat id. -/
structure DirState where
  chats : List ChatRec
  rows : List PRow
  stamp : Nat
deriving DecidableEq, Repr

/-- The membership query issued inside the dedup loop (ChatSidebar.tsx
lines 277-284): does the chatParticipants collection hold a row with this
chat id and this user id. -/
def participates (rows : List PRow) (c : Nat) (u : String) : Bool :=
  rows.any (fun r => r.chatId == c && r.userId == u)

/-- The dedup scan of `handleStartChat` (ChatSidebar.tsx lines 272-292):
enumerate the membership rows of `me` in store order and return the first
one whose chat also has `other` as a participant. -/
def findShared (rows : List PRow) (me other : String) : Option PRow :=
  (rows.filter (fun r => r.userId == me)).find?
    (fun r => participates rows r.chatId other)

/-- Embedding of `handleNewChat` (App component): create an individual chat
under a fresh stamp id and insert the two participant rows, requester
first. -/
def handleNewChat (db : DirState) (me other : String) : Nat × DirState :=
  let c := db.stamp
  (c, { chats := db.chats ++ [{ id := c, kind := ChatKind.individual, createdBy := me }],
        rows := db.rows ++ [{ chatId := c, userId := me }, { chatId := c, userId := other }],
        stamp := db.stamp + 1 })

/-- Embedding of `handleStartChat` (ChatSidebar.tsx lines 269-300) composed
with the `onNewChat` callback: return the first shared conversation if one
exists, otherwise create a new individual conversation. -/
def handleStartChat (db : DirState) (me other : String) : Nat × DirState :=
  match findShared db.rows me other with
  | some r => (r.chatId, db)
  | none => handleNewChat db me other

/-- A sequence of sequential calls for the pair (a, b); `true` stands for
the orientation (a, b) and `false` for (b, a).  Returns the conversation
ids in call order together with the final store state. -/
def runCalls (a b : String) : DirState → List Bool → List Nat × DirState
  | db, [] => ([], db)
  | db, d :: ds =>
      let step := if d then handleStartChat db a b else handleStartChat db b a
      let rest := runCalls a b step.2 ds
      (step.1 :: rest.1, rest.2)

/-- No conversation of any kind is shared by a and b. -/
def NoSharedChat (rows : List PRow) (a b : String) : Prop :=
  ∀ c, ¬(participates rows c a = true ∧ participates rows c b = true)

/-- Exactly the conversation c is shared by a and b. -/
def UniqueSharedChat (rows : List PRow) (a b : String) (c : Nat) : Prop :=
  participates rows c a = true ∧ participates rows c b = true ∧
    ∀ e, participates rows e a = true → participates rows e b = true → e = c

/-! ## Group creation (ChatSidebar.tsx `handleCreateGroup`) -/

/-- Record of the groups collection. -/
structure GroupRec where
  id : String
  name : String
  description : String
  createdBy : String
  createdAt : Nat
deriving DecidableEq, Repr

/-- Record of the chats collection as written by `handleCreateGroup`. -/
structure GroupChatRec where
  id : String
  name : String
  kind : String
  createdBy : String
  createdAt : Nat
deriving DecidableEq, Repr

/-- Record of the groupMembers collection. -/
structure GroupMemberRec where
  id : String
  groupId : String
  userId : String
  role : String
  joinedAt : Nat
deriving DecidableEq, Repr

/-- Record of the chatParticipants collection as written by
`handleCreateGroup` (string ids here, as in the source). -/
structure GroupParticipantRec where
  id : String
  chatId : String
  userId : String
  joinedAt : Nat
deriving DecidableEq, Repr

/-- Record of the messages collection as written by the welcome message. -/
structure GroupMessageRec where
  id : String
  chatId : String
  senderId : String
  content : String
  messageType : String
  createdAt : Nat
deriving DecidableEq, Repr

/-- The store collections touched by `handleCreateGroup`. -/
structure GroupStore where
  groups : List GroupRec
  chats : List GroupChatRec
  groupMembers : List GroupMemberRec
  chatParticipants : List GroupParticipantRec
  messages : List GroupMessageRec
deriving DecidableEq, Repr

/-- Embedding of `handleCreateGroup` (ChatSidebar.tsx lines 302-368).  The
validation guard mirrors `if (!groupName.trim() || selectedUsers.length
=== 0) return`: the handler returns at once, leaving the store untouched
and selecting no chat (`none`).  Otherwise it creates the group record, the
chat record, one groupMembers row and one chatParticipants row per member
(creator first, creator with the admin role), and the welcome message. -/
def handleCreateGroup (st : GroupStore) (creatorId creatorName : String)
    (groupName : String) (selectedUsers : List String) (now : Nat) :
    GroupStore × Option String :=
  if jsTrim groupName = "" ∨ selectedUsers.length = 0 then (st, none)
  else
    let groupId := "group_" ++ toString now
    let chatId := "chat_" ++ groupId
    let allMembers := creatorId :: selectedUsers
    let groupRec : GroupRec :=
      { id := groupId, name := groupName, description := "",
        createdBy := creatorId, createdAt := now }
    let chatRec : GroupChatRec :=
      { id := chatId, name := groupName, kind := "group",
        createdBy := creatorId, createdAt := now }
    let memberRow : String → GroupMemberRec := fun uid =>
      { id := "gm_" ++ groupId ++ "_" ++ uid, groupId := groupId,
        userId := uid,
        role := if uid == creatorId then "admin" else "member",
        joinedAt := now }
    let participantRow : String → GroupParticipantRec := fun uid =>
      { id := "cp_" ++ chatId ++ "_" ++ uid, chatId := chatId,
        userId := uid, joinedAt := now }
    let welcome : GroupMessageRec :=
      { id := "msg_" ++ toString now, chatId := chatId,
        senderId := creatorId,
        content := creatorName ++ " created group \"" ++ groupName ++ "\"",
        messageType := "text", createdAt := now }
    let st' : GroupStore :=
      { groups := st.groups ++ [groupRec],
        chats := st.chats ++ [chatRec],
        groupMembers := st.groupMembers ++ allMembers.map memberRow,
        chatParticipants := st.chatParticipants ++ allMembers.map participantRow,
        messages := st.messages ++ [welcome] }
    (st', some chatId)

/-! ## Story lifecycle (Stories.tsx) -/

/-- Record of the stories collection. -/
structure StoryRec where
  id : Nat
  userId : String
  contentUrl : String
  contentType : String
  caption : String
  createdAt : Nat
  expiresAt : Nat
deriving DecidableEq, Repr

/-- The fixed story time-to-live: 24 hours in milliseconds
(Stories.tsx line 126). -/
def storyTtlMs : Nat := 24 * 60 * 60 * 1000

/-- The story record built by `handleAddStory` (Stories.tsx lines
124-137): stamped with the creation clock reading and expiring one TTL
later. -/
def mkStory (uid url : String) (isVideo : Bool) (caption : String)
    (now : Nat) : StoryRec :=
  { id := now, userId := uid, contentUrl := url,
    contentType := if isVideo then "video" else "image",
    caption := caption, createdAt := now, expiresAt := now + storyTtlMs }

/-- Effect of `handleAddStory` on the stories collection: one create. -/
def handleAddStory (stories : List StoryRec) (uid url : String)
    (isVideo : Bool) (caption : String) (now : Nat) : List StoryRec :=
  stories ++ [mkStory uid url isVideo caption now]

/-- The query issued by `loadStories` (Stories.tsx lines 58-62): all
stories with `expiresAt` strictly greater than the query-time clock
reading, ordered by creation time descending.  Expiry is evaluated by this
filter alone; nothing is deleted. -/
def activeStoriesQuery (stories : List StoryRec) (now : Nat) :
    List StoryRec :=
  (stories.filter (fun s => decide (now < s.expiresAt))).mergeSort
    (fun a b => decide (b.createdAt ≤ a.createdAt))

/-- Record of the storyViews collection. -/
structure StoryViewRec where
  id : Nat
  storyId : Nat
  viewerId : String
  viewedAt : Nat
deriving DecidableEq, Repr

/-- The dedup query of `handleViewStory` (Stories.tsx lines 158-165): the
existing view records for this (story, viewer) pair. -/
def viewsFor (views : List StoryViewRec) (sid : Nat) (uid : String) :
    List StoryViewRec :=
  views.filter (fun v => v.storyId == sid && v.viewerId == uid)

/-- Effect of the view-marking part of `handleViewStory` (Stories.tsx
lines 154-178) on the storyViews collection: nothing for the author
viewing an own story; otherwise check-then-insert, creating a record only
when the pair has none. -/
def markStoryViewed (views : List StoryViewRec) (s : StoryRec)
    (uid : String) (now : Nat) : List StoryViewRec :=
  if s.userId == uid then views
  else if (viewsFor views s.id uid).length = 0 then
    views ++ [{ id := now, storyId := s.id, viewerId := uid, viewedAt := now }]
  else views

/-- Playback state of the story viewer: closed, or playing the story at a
given index of the flattened ordering with a progress value. -/
inductive PlayState where
  | closed
  | playing (index : Nat) (progress : Nat)
deriving DecidableEq, Repr

/-- One firing of the interval timer started by `handleViewStory`
(Stories.tsx lines 181-196), for a flattened story list of length n.  The
updater receives the previous progress: at 100 or more it clears the timer
and either advances to the next index with progress reset to 0 or closes
the viewer at the end of the list; below 100 it adds the increment 2
(tick interval 100 ms, so progress reaches 100 only after 5 seconds). -/
def storyTick (n : Nat) : PlayState → PlayState
  | PlayState.closed => PlayState.closed
  | PlayState.playing i p =>
      if 100 ≤ p then
        if i < n - 1 then PlayState.playing (i + 1) 0 else PlayState.closed
      else PlayState.playing i (p + 2)

/-- Story-viewer session state together with the number of live interval
timers (each `setInterval` adds one handle, each `clearInterval` removes
one). -/
structure ViewerSys where
  timers : Nat
  play : PlayState
deriving DecidableEq, Repr

/-- The events that drive the viewer: opening it from the story list,
a timer firing, the manual tap-right and tap-left navigation, and the
explicit close button. -/
inductive ViewerEvent where
  | openViewer (i : Nat)
  | tick
  | tapNext
  | tapPrev
  | closeViewer
deriving DecidableEq, Repr

/-- Transition function of the viewer for a flattened story list of
length n, following Stories.tsx lines 148-227.  `handleViewStory` itself
starts a timer without clearing any; the clearing is done by each caller:
the auto-advance branch of the tick callback clears the fired timer first,
`nextStory` and `prevStory` clear the stored timer before re-invoking
`handleViewStory`, and `closeStoryViewer` clears it and starts none.
Opening from the story list only happens while the viewer dialog is
closed.  Events that cannot occur in a state leave it unchanged. -/
def viewerStep (n : Nat) (st : ViewerSys) : ViewerEvent → ViewerSys
  | ViewerEvent.openViewer i =>
      match st.play with
      | PlayState.closed => { timers := st.timers + 1, play := PlayState.playing i 0 }
      | PlayState.playing _ _ => st
  | ViewerEvent.tick =>
      match st.play with
      | PlayState.closed => st
      | PlayState.playing i p =>
          if st.timers = 0 then st
          else if 100 ≤ p then
            if i < n - 1 then
              { timers := st.timers - 1 + 1, play := PlayState.playing (i + 1) 0 }
            else { timers := st.timers - 1, play := PlayState.closed }
          else { timers := st.timers, play := PlayState.playing i (p + 2) }
  | ViewerEvent.tapNext =>
      match st.play with
      | PlayState.closed => st
      | PlayState.playing i _ =>
          if i < n - 1 then
            { timers := st.timers - 1 + 1, play := PlayState.playing (i + 1) 0 }
          else { timers := st.timers - 1, play := PlayState.closed }
  | ViewerEvent.tapPrev =>
      match st.play with
      | PlayState.closed => st
      | PlayState.playing i _ =>
          if 0 < i then
            { timers := st.timers - 1 + 1, play := PlayState.playing (i - 1) 0 }
          else st
  | ViewerEvent.closeViewer =>
      { timers := st.timers - 1, play := PlayState.closed }

/-- The viewer state reached from the initial state (closed, no timer)
after a sequence of events. -/
def runViewer (n : Nat) (evs : List ViewerEvent) : ViewerSys :=
  evs.foldl (viewerStep n) { timers := 0, play := PlayState.closed }

/-- The timer-discipline invariant: no timer while the viewer is closed,
exactly one while it is playing. -/
def TimerInv (st : ViewerSys) : Prop :=
  (st.play = PlayState.closed → st.timers = 0) ∧
    ∀ i p, st.play = PlayState.playing i p → st.timers = 1

/-- Boolean form of the timer-discipline invariant, for rewriting. -/
def timerOk (st : ViewerSys) : Bool :=
  match st.play with
  | PlayState.closed => st.timers == 0
  | PlayState.playing _ _ => st.timers == 1

/-! ## Theorems -/

/-- C2: after a successful send with a non-blank draft, the locally
observed message sequence is exactly the prior sequence with the one new
message appended at the end, so nothing is reordered, dropped, or
duplicated. -/
theorem send_appends_exactly_one (msgs : List Message) (chatId : Nat)
    (sender draft : String) (replyTo : Option Message) (now : Nat)
    (hne : jsTrim draft ≠ "") :
    sendMessage msgs chatId sender draft replyTo now true
      = msgs ++ [mkTextMessage chatId sender draft replyTo now] := by
  simp [sendMessage, hne]

/-- Witness for C2 at a concrete input. -/
theorem send_appends_exactly_one_witness :
    sendMessage [] 1 "alice" "hi" none 5 true
      = [] ++ [mkTextMessage 1 "alice" "hi" none 5] :=
  send_appends_exactly_one [] 1 "alice" "hi" none 5 (by decide)

/-- C3: when the durable create fails, the rollback filter removes the
optimistically appended message and, since the generated id is fresh with
respect to the prior sequence, restores exactly the pre-call sequence. -/
theorem send_rollback_restores (msgs : List Message) (chatId : Nat)
    (sender draft : String) (replyTo : Option Message) (now : Nat)
    (hne : jsTrim draft ≠ "") (hfresh : ∀ m ∈ msgs, m.id ≠ now) :
    sendMessage msgs chatId sender draft replyTo now false = msgs := by
  unfold sendMessage
  rw [if_neg hne]
  have hfilter : List.filter (fun x => x.id != now) msgs = msgs :=
    List.filter_eq_self.mpr (fun a ha => bne_iff_ne.mpr (hfresh a ha))
  simp [List.filter_append, hfilter, mkTextMessage]

/-- Witness for C3 at a concrete input. -/
theorem send_rollback_restores_witness :
    sendMessage [mkTextMessage 1 "bob" "yo" none 3] 1 "alice" "hi" none 5 false
      = [mkTextMessage 1 "bob" "yo" none 3] := by
  refine send_rollback_restores _ 1 "alice" "hi" none 5 (by decide) ?_
  intro m hm
  simp only [List.mem_singleton] at hm
  subst hm
  decide

/-- C4: the delete action is gated on the acting user being the sender of
the message.  The source enforces the requirement at the action-menu
layer: the Delete item is rendered only when the sender is the current
user, so for any other user the action is unavailable and no state
changes; the spec names that refusal PermissionError.  When the sender
acts, the durable delete is issued and the message is absent from every
subsequent listing of its chat. -/
theorem delete_requires_sender (db : List Message) (u : String)
    (m : Message) :
    (deleteMenuShown m u = true ↔ m.senderId = u)
    ∧ (m.senderId ≠ u → tryDeleteMessage db u m = none)
    ∧ (m.senderId = u →
        tryDeleteMessage db u m = some (deleteMessageRecord db m.id)
          ∧ m ∉ listMessages (deleteMessageRecord db m.id) m.chatId) := by
  refine ⟨beq_iff_eq, ?_, ?_⟩
  · intro hne
    unfold tryDeleteMessage
    rw [if_neg]
    simp [deleteMenuShown, hne]
  · intro heq
    refine ⟨?_, ?_⟩
    · unfold tryDeleteMessage
      rw [if_pos]
      simp [deleteMenuShown, heq]
    · intro hmem
      rw [listMessages, List.mem_mergeSort, List.mem_filter] at hmem
      have h1 := hmem.1
      rw [deleteMessageRecord, List.mem_filter] at h1
      simp at h1

/-- Witness for C4 at concrete inputs: a non-sender has no delete action
available, the sender deletes, and the deleted message is absent from the
subsequent listing. -/
theorem delete_requires_sender_witness :
    tryDeleteMessage [mkTextMessage 1 "alice" "hello" none 5] "bob"
        (mkTextMessage 1 "alice" "hello" none 5) = none
    ∧ tryDeleteMessage [mkTextMessage 1 "alice" "hello" none 5] "alice"
        (mkTextMessage 1 "alice" "hello" none 5)
      = some (deleteMessageRecord [mkTextMessage 1 "alice" "hello" none 5]
          (mkTextMessage 1 "alice" "hello" none 5).id)
    ∧ mkTextMessage 1 "alice" "hello" none 5
        ∉ listMessages
            (deleteMessageRecord [mkTextMessage 1 "alice" "hello" none 5]
              (mkTextMessage 1 "alice" "hello" none 5).id)
            (mkTextMessage 1 "alice" "hello" none 5).chatId := by
  refine ⟨(delete_requires_sender _ "bob" _).2.1 (by decide), ?_, ?_⟩
  · exact ((delete_requires_sender _ "alice" _).2.2 rfl).1
  · exact ((delete_requires_sender _ "alice" _).2.2 rfl).2

/-- C5: with a blank (empty or whitespace-only) group name or an empty
member selection, `handleCreateGroup` refuses the operation before any
durable call: it selects no chat and leaves every collection of the store
untouched; the spec names that locally detected refusal ValidationError. -/
theorem createGroup_validation (st : GroupStore)
    (creatorId creatorName groupName : String)
    (selectedUsers : List String) (now : Nat)
    (hval : jsTrim groupName = "" ∨ selectedUsers.length = 0) :
    handleCreateGroup st creatorId creatorName groupName selectedUsers now
      = (st, none) := by
  unfold handleCreateGroup
  rw [if_pos hval]

/-- Witness for C5 at a concrete input: a whitespace-only name is
refused with no side effect, as is an empty member list. -/
theorem createGroup_validation_witness :
    handleCreateGroup ⟨[], [], [], [], []⟩ "alice" "Alice" "  " ["bob"] 7
        = (⟨[], [], [], [], []⟩, none)
    ∧ handleCreateGroup ⟨[], [], [], [], []⟩ "alice" "Alice" "Team" [] 7
        = (⟨[], [], [], [], []⟩, none) :=
  ⟨createGroup_validation _ "alice" "Alice" "  " ["bob"] 7 (Or.inl (by decide)),
   createGroup_validation _ "alice" "Alice" "Team" [] 7 (Or.inr rfl)⟩

/-- C6: a story created at time T carries expiry T plus the 24-hour TTL,
and the query-time filter of `loadStories` includes it exactly when the
query time is strictly below that expiry; in particular it is listed
throughout [T, T plus 24h) and excluded from T plus 24h on, without any
deletion taking place. -/
theorem story_active_window (stories : List StoryRec)
    (uid url caption : String) (isVideo : Bool) (T q : Nat) :
    (mkStory uid url isVideo caption T).expiresAt = T + storyTtlMs
    ∧ (mkStory uid url isVideo caption T
          ∈ activeStoriesQuery (handleAddStory stories uid url isVideo caption T) q
        ↔ q < T + storyTtlMs) := by
  refine ⟨rfl, ?_⟩
  unfold activeStoriesQuery handleAddStory
  rw [List.mem_mergeSort, List.mem_filter]
  constructor
  · intro h
    have h2 := h.2
    rw [decide_eq_true_iff] at h2
    exact h2
  · intro hq
    refine ⟨List.mem_append_right _ (List.mem_singleton.mpr rfl), ?_⟩
    rw [decide_eq_true_iff]
    exact hq

/-- C7: for a viewer distinct from the author and a (story, viewer) pair
holding no view record yet, two sequential calls of the view marking
produce exactly one StoryView record: the first call inserts it and the
second call, finding it, inserts nothing. -/
theorem story_view_dedup (views : List StoryViewRec) (s : StoryRec)
    (uid : String) (t1 t2 : Nat) (hown : s.userId ≠ uid)
    (h0 : (viewsFor views s.id uid).length = 0) :
    markStoryViewed views s uid t1
        = views ++ [{ id := t1, storyId := s.id, viewerId := uid, viewedAt := t1 }]
    ∧ markStoryViewed (markStoryViewed views s uid t1) s uid t2
        = markStoryViewed views s uid t1
    ∧ (viewsFor (markStoryViewed (markStoryViewed views s uid t1) s uid t2)
          s.id uid).length = 1 := by
  have hbeq : (s.userId == uid) = false := by
    rw [beq_eq_false_iff_ne]
    exact hown
  have hfirst : markStoryViewed views s uid t1
      = views ++ [{ id := t1, storyId := s.id, viewerId := uid, viewedAt := t1 }] := by
    unfold markStoryViewed
    rw [hbeq]
    simp [h0]
  have hcount : (viewsFor
      (views ++ [{ id := t1, storyId := s.id, viewerId := uid, viewedAt := t1 }])
      s.id uid).length = 1 := by
    unfold viewsFor at h0 ⊢
    rw [List.filter_append, List.length_append, h0]
    simp
  have hsecond : markStoryViewed
      (views ++ [{ id := t1, storyId := s.id, viewerId := uid, viewedAt := t1 }])
      s uid t2
      = views ++ [{ id := t1, storyId := s.id, viewerId := uid, viewedAt := t1 }] := by
    unfold markStoryViewed
    rw [hbeq, hcount]
    simp
  refine ⟨hfirst, ?_, ?_⟩
  · rw [hfirst, hsecond]
  · rw [hfirst, hsecond, hcount]

/-- Witness for C7 at concrete inputs. -/
theorem story_view_dedup_witness :
    markStoryViewed [] (mkStory "bob" "u" false "" 3) "alice" 10
        = [] ++ [{ id := 10, storyId := (mkStory "bob" "u" false "" 3).id,
                   viewerId := "alice", viewedAt := 10 }]
    ∧ markStoryViewed (markStoryViewed [] (mkStory "bob" "u" false "" 3) "alice" 10)
          (mkStory "bob" "u" false "" 3) "alice" 11
        = markStoryViewed [] (mkStory "bob" "u" false "" 3) "alice" 10
    ∧ (viewsFor (markStoryViewed
          (markStoryViewed [] (mkStory "bob" "u" false "" 3) "alice" 10)
          (mkStory "bob" "u" false "" 3) "alice" 11)
        (mkStory "bob" "u" false "" 3).id "alice").length = 1 :=
  story_view_dedup [] (mkStory "bob" "u" false "" 3) "alice" 10 11
    (by decide) rfl

/-- C8 counterexample: with two stories, after exactly 50 firings of the
default timer the playback state is still at index 0 — progress has just
reached 100 — and is neither Playing at index 1 nor Closed; the advance
only fires on the following tick, because the updater tests the previous
progress value against 100 before adding the increment. -/
theorem fifty_ticks_do_not_advance :
    (storyTick 2)^[50] (PlayState.playing 0 0) = PlayState.playing 0 100
    ∧ (storyTick 2)^[50] (PlayState.playing 0 0) ≠ PlayState.playing 1 0
    ∧ (storyTick 2)^[50] (PlayState.playing 0 0) ≠ PlayState.closed := by
  decide

/-- C8 (amended): starting from Playing at index 0 with progress 0, the
51st firing of the default timer performs the transition: with at least
two stories in the flattened ordering it moves to index 1 with progress
reset to 0, and with a single story it closes the viewer. -/
theorem playback_advances_after_51_ticks (n : Nat) :
    (2 ≤ n →
      (storyTick n)^[51] (PlayState.playing 0 0) = PlayState.playing 1 0)
    ∧ (n = 1 →
      (storyTick n)^[51] (PlayState.playing 0 0) = PlayState.closed) := by
  have key : ∀ k, k ≤ 50 →
      (storyTick n)^[k] (PlayState.playing 0 0) = PlayState.playing 0 (2 * k) := by
    intro k
    induction k with
    | zero => intro _; rfl
    | succ k ih =>
        intro hk
        rw [Function.iterate_succ_apply', ih (by omega)]
        have hlt : ¬(100 ≤ 2 * k) := by omega
        simp only [storyTick, if_neg hlt]
        congr 1
  have hstep : (storyTick n)^[51] (PlayState.playing 0 0)
      = storyTick n (PlayState.playing 0 100) := by
    have h50 := key 50 le_rfl
    rw [show (51 : Nat) = 50 + 1 from rfl, Function.iterate_succ_apply', h50]
  constructor
  · intro hn
    rw [hstep]
    have h1 : (100 : Nat) ≤ 100 := le_rfl
    have h2 : 0 < n - 1 := by omega
    simp only [storyTick, if_pos h1, if_pos h2]
  · intro hn
    subst hn
    rw [hstep]
    simp [storyTick]

/-- Witness for the amended C8 at concrete story counts. -/
theorem playback_advances_after_51_ticks_witness :
    (storyTick 2)^[51] (PlayState.playing 0 0) = PlayState.playing 1 0
    ∧ (storyTick 1)^[51] (PlayState.playing 0 0) = PlayState.closed :=
  ⟨(playback_advances_after_51_ticks 2).1 (by decide),
   (playback_advances_after_51_ticks 1).2 rfl⟩

/-- Helper for C9: one viewer transition preserves the timer discipline
(no live timer while closed, exactly one while playing), because each
transition that changes the active story clears the pending timer before
`handleViewStory` starts the next one, and closing clears it without
starting another. -/
theorem timerOk_step (n : Nat) (st : ViewerSys) (e : ViewerEvent)
    (h : timerOk st = true) : timerOk (viewerStep n st e) = true := by
  obtain ⟨t, pl⟩ := st
  cases pl with
  | closed =>
      have ht : t = 0 := by simpa [timerOk] using h
      subst ht
      cases e <;> simp [timerOk, viewerStep]
  | playing i p =>
      have ht : t = 1 := by simpa [timerOk] using h
      subst ht
      cases e with
      | openViewer j => simp [timerOk, viewerStep]
      | tick =>
          by_cases h100 : 100 ≤ p
          · by_cases hend : i < n - 1
            · simp [timerOk, viewerStep, h100, hend]
            · simp [timerOk, viewerStep, h100, hend]
          · simp [timerOk, viewerStep, h100]
      | tapNext =>
          by_cases hend : i < n - 1
          · simp [timerOk, viewerStep, hend]
          · simp [timerOk, viewerStep, hend]
      | tapPrev =>
          by_cases hzero : 0 < i
          · simp [timerOk, viewerStep, hzero]
          · simp [timerOk, viewerStep, hzero]
      | closeViewer => simp [timerOk, viewerStep]

/-- C9: along every event trace of the story viewer at most one advance
timer is live at any time — in fact none while the viewer is closed and
exactly one while it is playing — since auto-advance, manual next, manual
previous and explicit close all cancel the pending timer before any new
one is started. -/
theorem at_most_one_story_timer (n : Nat) (evs : List ViewerEvent) :
    (runViewer n evs).timers ≤ 1 := by
  have hfold : ∀ (l : List ViewerEvent) (st : ViewerSys), timerOk st = true →
      timerOk (l.foldl (viewerStep n) st) = true := by
    intro l
    induction l with
    | nil => intro st h; exact h
    | cons e l ih => intro st h; exact ih _ (timerOk_step n st e h)
  have h : timerOk (runViewer n evs) = true :=
    hfold evs ⟨0, PlayState.closed⟩ rfl
  rcases hrv : runViewer n evs with ⟨t, pl⟩
  rw [hrv] at h
  cases pl <;> simp_all [timerOk]

/-- Helper: symmetry of the no-shared-conversation predicate. -/
theorem noSharedChat_symm (rows : List PRow) (a b : String)
    (h : NoSharedChat rows a b) : NoSharedChat rows b a :=
  fun c hc => h c ⟨hc.2, hc.1⟩

/-- Helper: symmetry of the unique-shared-conversation predicate. -/
theorem uniqueSharedChat_symm (rows : List PRow) (a b : String) (c : Nat)
    (h : UniqueSharedChat rows a b c) : UniqueSharedChat rows b a c :=
  ⟨h.2.1, h.1, fun e hb ha => h.2.2 e ha hb⟩

/-- Helper: membership characterization of the participation query. -/
theorem participates_iff (rows : List PRow) (c : Nat) (u : String) :
    participates rows c u = true
      ↔ ∃ r ∈ rows, r.chatId = c ∧ r.userId = u := by
  rw [participates, List.any_eq_true]
  constructor
  · rintro ⟨r, hr, hp⟩
    rw [Bool.and_eq_true, beq_iff_eq, beq_iff_eq] at hp
    exact ⟨r, hr, hp⟩
  · rintro ⟨r, hr, h1, h2⟩
    refine ⟨r, hr, ?_⟩
    rw [Bool.and_eq_true, beq_iff_eq, beq_iff_eq]
    exact ⟨h1, h2⟩

/-- Helper: with no shared conversation the dedup scan finds nothing. -/
theorem findShared_eq_none_of_noShared (rows : List PRow) (a b : String)
    (h : NoSharedChat rows a b) : findShared rows a b = none := by
  rw [findShared, List.find?_eq_none]
  intro r hr hp
  rw [List.mem_filter, beq_iff_eq] at hr
  have hpa : participates rows r.chatId a = true :=
    (participates_iff rows r.chatId a).mpr ⟨r, hr.1, rfl, hr.2⟩
  exact h r.chatId ⟨hpa, hp⟩

/-- Helper: with no shared conversation, `handleStartChat` creates the new
individual conversation under the current stamp, inserting the requester
row first. -/
theorem handleStartChat_creates (db : DirState) (a b : String)
    (h : NoSharedChat db.rows a b) :
    handleStartChat db a b
      = (db.stamp,
          { chats := db.chats
              ++ [{ id := db.stamp, kind := ChatKind.individual, createdBy := a }],
            rows := db.rows
              ++ [{ chatId := db.stamp, userId := a },
                  { chatId := db.stamp, userId := b }],
            stamp := db.stamp + 1 }) := by
  unfold handleStartChat
  rw [findShared_eq_none_of_noShared db.rows a b h]
  rfl

/-- Helper: participation in the store extended by the two rows of a newly
created conversation. -/
theorem participates_append_pair (rows : List PRow) (x y u : String)
    (c e : Nat) :
    participates (rows ++ [{ chatId := c, userId := x },
        { chatId := c, userId := y }]) e u = true
      ↔ participates rows e u = true ∨ (e = c ∧ (u = x ∨ u = y)) := by
  constructor
  · intro h
    obtain ⟨r, hr, h1, h2⟩ := (participates_iff _ _ _).mp h
    rcases List.mem_append.mp hr with hold | hnew
    · exact Or.inl ((participates_iff _ _ _).mpr ⟨r, hold, h1, h2⟩)
    · right
      rcases List.mem_cons.mp hnew with h3 | h3
      · subst h3
        exact ⟨h1.symm, Or.inl h2.symm⟩
      · rw [List.mem_singleton] at h3
        subst h3
        exact ⟨h1.symm, Or.inr h2.symm⟩
  · intro h
    rcases h with hold | ⟨he, hu⟩
    · obtain ⟨r, hr, h1, h2⟩ := (participates_iff _ _ _).mp hold
      exact (participates_iff _ _ _).mpr ⟨r, List.mem_append_left _ hr, h1, h2⟩
    · rcases hu with hu | hu
      · exact (participates_iff _ _ _).mpr
          ⟨{ chatId := c, userId := x }, by simp, he.symm, hu.symm⟩
      · exact (participates_iff _ _ _).mpr
          ⟨{ chatId := c, userId := y }, by simp, he.symm, hu.symm⟩

/-- Helper: after the directory creates the conversation for a previously
unrelated pair, that conversation is their unique shared one, even if the
minted stamp collides with an existing chat id. -/
theorem uniqueShared_after_create (rows : List PRow) (a b : String) (c : Nat)
    (h : NoSharedChat rows a b) :
    UniqueSharedChat (rows ++ [{ chatId := c, userId := a },
        { chatId := c, userId := b }]) a b c := by
  refine ⟨?_, ?_, ?_⟩
  · exact (participates_append_pair rows a b a c c).mpr (Or.inr ⟨rfl, Or.inl rfl⟩)
  · exact (participates_append_pair rows a b b c c).mpr (Or.inr ⟨rfl, Or.inr rfl⟩)
  · intro e hea heb
    rcases (participates_append_pair rows a b a c e).mp hea with ha | ⟨he, _⟩
    · rcases (participates_append_pair rows a b b c e).mp heb with hb | ⟨he, _⟩
      · exact absurd ⟨ha, hb⟩ (h e)
      · exact he
    · exact he

/-- Helper: when exactly one conversation is shared, the dedup scan finds
a row of that conversation. -/
theorem findShared_of_uniqueShared (rows : List PRow) (a b : String)
    (c : Nat) (h : UniqueSharedChat rows a b c) :
    ∃ r, findShared rows a b = some r ∧ r.chatId = c := by
  obtain ⟨hpa, hpb, huniq⟩ := h
  obtain ⟨ra, hra, h1, h2⟩ := (participates_iff rows c a).mp hpa
  cases hfind : findShared rows a b with
  | none =>
      exfalso
      unfold findShared at hfind
      rw [List.find?_eq_none] at hfind
      refine hfind ra ?_ ?_
      · rw [List.mem_filter, beq_iff_eq]
        exact ⟨hra, h2⟩
      · rw [h1]
        exact hpb
  | some r =>
      have hfind' := hfind
      unfold findShared at hfind'
      have hpred := List.find?_some hfind'
      have hmem := List.mem_of_find?_eq_some hfind'
      rw [List.mem_filter, beq_iff_eq] at hmem
      have hra2 : participates rows r.chatId a = true :=
        (participates_iff _ _ _).mpr ⟨r, hmem.1, rfl, hmem.2⟩
      exact ⟨r, rfl, huniq r.chatId hra2 hpred⟩

/-- Helper: when exactly one conversation is shared, `handleStartChat`
returns its id and leaves the store untouched. -/
theorem handleStartChat_returns_unique (db : DirState) (a b : String)
    (c : Nat) (h : UniqueSharedChat db.rows a b c) :
    handleStartChat db a b = (c, db) := by
  obtain ⟨r, hr, hc⟩ := findShared_of_uniqueShared db.rows a b c h
  unfold handleStartChat
  rw [hr]
  show (r.chatId, db) = (c, db)
  rw [hc]

/-- Helper: once the pair has its unique shared conversation, every later
call in either orientation returns the same id without mutating the
store. -/
theorem runCalls_unique (a b : String) (c : Nat) (db : DirState)
    (h : UniqueSharedChat db.rows a b c) (ds : List Bool) :
    runCalls a b db ds = (List.replicate ds.length c, db) := by
  induction ds with
  | nil => rfl
  | cons d ds ih =>
      have hstep : (if d then handleStartChat db a b
          else handleStartChat db b a) = (c, db) := by
        cases d
        · exact handleStartChat_returns_unique db b a c
            (uniqueSharedChat_symm db.rows a b c h)
        · exact handleStartChat_returns_unique db a b c h
      simp only [runCalls, hstep, ih, List.length_cons, List.replicate_succ]

/-- Helper: unfolding one call of the sequence. -/
theorem runCalls_cons_eq (a b : String) (db : DirState) (d : Bool)
    (ds : List Bool) :
    runCalls a b db (d :: ds)
      = ((if d then handleStartChat db a b else handleStartChat db b a).1
            :: (runCalls a b (if d then handleStartChat db a b
                  else handleStartChat db b a).2 ds).1,
         (runCalls a b (if d then handleStartChat db a b
              else handleStartChat db b a).2 ds).2) := rfl

/-- Helper: for a previously unrelated pair, every id returned along a
nonempty call sequence is the stamp minted by the first call. -/
theorem runCalls_ids_after_create (a b : String) (db : DirState)
    (hns : NoSharedChat db.rows a b) (d : Bool) (ds : List Bool) :
    ∀ x ∈ (runCalls a b db (d :: ds)).1, x = db.stamp := by
  have hset : (if d then handleStartChat db a b
        else handleStartChat db b a).1 = db.stamp
      ∧ UniqueSharedChat (if d then handleStartChat db a b
          else handleStartChat db b a).2.rows a b db.stamp := by
    cases d with
    | true =>
        show (handleStartChat db a b).1 = db.stamp
          ∧ UniqueSharedChat (handleStartChat db a b).2.rows a b db.stamp
        rw [handleStartChat_creates db a b hns]
        exact ⟨rfl, uniqueShared_after_create db.rows a b db.stamp hns⟩
    | false =>
        show (handleStartChat db b a).1 = db.stamp
          ∧ UniqueSharedChat (handleStartChat db b a).2.rows a b db.stamp
        rw [handleStartChat_creates db b a (noSharedChat_symm db.rows a b hns)]
        refine ⟨rfl, ?_⟩
        exact uniqueSharedChat_symm _ b a db.stamp
          (uniqueShared_after_create db.rows b a db.stamp
            (noSharedChat_symm db.rows a b hns))
  intro x hx
  rw [runCalls_cons_eq] at hx
  obtain ⟨h1, h2⟩ := hset
  rcases List.mem_cons.mp hx with hx | hx
  · rw [hx]
    exact h1
  · have h3 := runCalls_unique a b db.stamp _ h2 ds
    rw [h3] at hx
    have hx' : x ∈ List.replicate ds.length db.stamp := hx
    rw [List.mem_replicate] at hx'
    exact hx'.2

/-- C1: for two distinct users with no shared conversation, the first
`handleStartChat` call creates the conversation with both participant rows
inserted, requester first, and every call of any sequential sequence in
either orientation — including the first — returns that same conversation
id; later calls find it by enumerating the membership rows of the caller
and returning the first conversation in which the other user also
participates, creating nothing further. -/
theorem resolveOrCreateIndividual_stable (a b : String) (db : DirState)
    (_hab : a ≠ b) (hns : NoSharedChat db.rows a b) :
    (handleStartChat db a b).2.rows
        = db.rows ++ [{ chatId := db.stamp, userId := a },
            { chatId := db.stamp, userId := b }]
    ∧ ∀ ds : List Bool,
        ((runCalls a b db ds).1).all (fun x => x == db.stamp) = true := by
  constructor
  · rw [handleStartChat_creates db a b hns]
  · intro ds
    rw [List.all_eq_true]
    intro x hx
    have hxs : x = db.stamp := by
      cases ds with
      | nil => simp [runCalls] at hx
      | cons d ds => exact runCalls_ids_after_create a b db hns d ds x hx
    exact beq_iff_eq.mpr hxs

/-- Witness for C1 at a concrete input: an empty store, the pair alice and
bob, and the call sequence (alice,bob), (bob,alice), (alice,bob). -/
theorem resolveOrCreateIndividual_stable_witness :
    (handleStartChat ⟨[], [], 0⟩ "alice" "bob").2.rows
        = (⟨[], [], 0⟩ : DirState).rows
            ++ [{ chatId := (⟨[], [], 0⟩ : DirState).stamp, userId := "alice" },
                { chatId := (⟨[], [], 0⟩ : DirState).stamp, userId := "bob" }]
    ∧ ((runCalls "alice" "bob" ⟨[], [], 0⟩ [true, false, true]).1).all
        (fun x => x == (⟨[], [], 0⟩ : DirState).stamp) = true := by
  have h := resolveOrCreateIndividual_stable "alice" "bob" ⟨[], [], 0⟩
    (by decide) (fun c hc => by simp [participates] at hc)
  exact ⟨h.1, h.2 [true, false, true]⟩

/-- C10: the dedup scan tests only shared membership, never the
conversation kind — whenever the pair already shares at least one
conversation of any kind, `handleStartChat` returns the id of a
conversation both participate in and mutates nothing, even when no
individual conversation exists between the pair. -/
theorem dedup_ignores_chat_kind (db : DirState) (a b : String)
    (h : ∃ c, participates db.rows c a = true
        ∧ participates db.rows c b = true) :
    (handleStartChat db a b).2 = db
    ∧ participates db.rows (handleStartChat db a b).1 a = true
    ∧ participates db.rows (handleStartChat db a b).1 b = true := by
  obtain ⟨c, hca, hcb⟩ := h
  obtain ⟨ra, hra, h1, h2⟩ := (participates_iff db.rows c a).mp hca
  cases hfs : findShared db.rows a b with
  | none =>
      exfalso
      unfold findShared at hfs
      rw [List.find?_eq_none] at hfs
      refine hfs ra ?_ ?_
      · rw [List.mem_filter, beq_iff_eq]
        exact ⟨hra, h2⟩
      · rw [h1]
        exact hcb
  | some r =>
      have hfs' := hfs
      unfold findShared at hfs'
      have hpred := List.find?_some hfs'
      have hmem := List.mem_of_find?_eq_some hfs'
      rw [List.mem_filter, beq_iff_eq] at hmem
      have hpa : participates db.rows r.chatId a = true :=
        (participates_iff db.rows r.chatId a).mpr ⟨r, hmem.1, rfl, hmem.2⟩
      unfold handleStartChat
      rw [hfs]
      exact ⟨rfl, hpa, hpred⟩

/-- Witness for C10 at a concrete input: alice and bob share only a group
conversation, and starting a chat returns it without creating anything. -/
theorem dedup_ignores_chat_kind_witness :
    (handleStartChat
        ⟨[⟨7, ChatKind.group, "carol"⟩], [⟨7, "alice"⟩, ⟨7, "bob"⟩], 9⟩
        "alice" "bob").2
      = ⟨[⟨7, ChatKind.group, "carol"⟩], [⟨7, "alice"⟩, ⟨7, "bob"⟩], 9⟩
    ∧ participates
        (⟨[⟨7, ChatKind.group, "carol"⟩], [⟨7, "alice"⟩, ⟨7, "bob"⟩], 9⟩
          : DirState).rows
        (handleStartChat
          ⟨[⟨7, ChatKind.group, "carol"⟩], [⟨7, "alice"⟩, ⟨7, "bob"⟩], 9⟩
          "alice" "bob").1 "alice" = true
    ∧ participates
        (⟨[⟨7, ChatKind.group, "carol"⟩], [⟨7, "alice"⟩, ⟨7, "bob"⟩], 9⟩
          : DirState).rows
        (handleStartChat
          ⟨[⟨7, ChatKind.group, "carol"⟩], [⟨7, "alice"⟩, ⟨7, "bob"⟩], 9⟩
          "alice" "bob").1 "bob" = true :=
  dedup_ignores_chat_kind _ "alice" "bob" ⟨7, by decide, by decide⟩
